import Mathlib

/-!
Shallow embedding of `server.py` (a MySQL MCP gateway) for verification.

The source is a single Python file.  Pure string manipulation (identifier
sanitization, statement building, the bearer-token check) is translated
directly.  Each tool handler is translated into a function that takes the
configured secret, the extracted credential, the handler's own arguments and
an abstract database engine (the outcome of `cur.execute`/`cur.fetchall`),
and returns the handler's result together with a `Trace` recording which
connections were opened (the `database` argument each `_connect` call
received) and how many connection closes ran.  Exceptions become `Except`.
-/

namespace MySQLMCP

/-- Values bound as SQL parameters (elements of `data.values()` / `params`). -/
inductive Value where
  | null
  | int (n : Int)
  | str (s : String)
deriving DecidableEq

/-- A dictionary row as returned by `cursor(dictionary=True)`: ordered
column-name/value pairs. -/
abbrev Row : Type := List (String × Value)

/-- An engine-side statement failure (mysql errno and message), as raised by
`cur.execute`. -/
structure ExecError where
  errno : Int
  msg : String
deriving DecidableEq

/-- Errors a handler can surface: `PermissionError("Unauthorized ...")` from
`_require_auth`, or a propagated engine error. -/
inductive Err where
  | unauthorized
  | execution (e : ExecError)
deriving DecidableEq

/-- Connection-lifecycle log of one handler call: `opens` records the
`database` argument of each `_connect` call in order, `closes` counts the
`con.close()` calls that ran (cursor and connection close are modelled as
non-raising). -/
structure Trace where
  opens : List (Option String)
  closes : Nat
deriving DecidableEq

/-- Python truthiness-based `a or b` on two optional strings
(`database or DEFAULT_DB` in `_connect`): `None` and `""` are falsy. -/
def pyOrOpt (a b : Option String) : Option String :=
  match a with
  | none => b
  | some s => if s = "" then b else some s

/-- Python truthiness-based `a or b` where the fallback is a plain string
(`os.getenv("MYSQL_AUTH_PLUGIN", None) or "mysql_native_password"`). -/
def pyOrStr (a : Option String) (b : String) : String :=
  match a with
  | none => b
  | some s => if s = "" then b else s

/-- Process-wide configuration read from the environment at startup
(`server.py` lines 24-30). -/
structure Env where
  MYSQL_HOST : String
  MYSQL_PORT : Nat
  MYSQL_USER : String
  MYSQL_PASSWORD : String
  DEFAULT_DB : Option String
  MYSQL_AUTH_PLUGIN : Option String
deriving DecidableEq

/-- The keyword-argument dictionary `_connect` passes to
`mysql.connector.connect` (`server.py` lines 41-51). -/
structure ConnConfig where
  host : String
  port : Nat
  user : String
  password : String
  autocommit : Bool
  database : Option String
  auth_plugin : String
deriving DecidableEq

/-- `_connect(database)` from `server.py` lines 41-51: builds the connect
configuration; the schema is `database or DEFAULT_DB`. -/
def connect_cfg (env : Env) (database : Option String) : ConnConfig :=
  ⟨env.MYSQL_HOST, env.MYSQL_PORT, env.MYSQL_USER, env.MYSQL_PASSWORD, true,
    pyOrOpt database env.DEFAULT_DB,
    pyOrStr env.MYSQL_AUTH_PLUGIN ("mysql_native_password")⟩

/-- Characters removed by Python `str.strip()` (ASCII whitespace; the source
only ever strips ASCII bearer tokens). -/
def pyIsSpace (c : Char) : Bool :=
  c = ' ' || c = '\t' || c = '\n' || c = '\r' || c = '\x0b' || c = '\x0c'

/-- Python `s.strip()` on a character list: drop whitespace from both ends. -/
def stripChars (cs : List Char) : List Char :=
  ((cs.dropWhile pyIsSpace).reverse.dropWhile pyIsSpace).reverse

/-- Python `s.lower()` (character-wise; the source compares an ASCII scheme
keyword). -/
def lowerChars (cs : List Char) : List Char := cs.map Char.toLower

/-- Python `target.startswith(pattern)` on character lists
(first argument is the pattern). -/
def startsWithChars : List Char → List Char → Bool
  | [], _ => true
  | _ :: _, [] => false
  | p :: ps, c :: cs => p = c && startsWithChars ps cs

/-- Python `token.split(" ", 1)[1]`: everything after the first space
(empty when no space occurs; in the source this is only reached after the
`"bearer "` check guarantees a space). -/
def afterFirstSpace : List Char → List Char
  | [] => []
  | c :: cs => if c = ' ' then cs else afterFirstSpace cs

/-- `_require_auth` from `server.py` lines 53-67, as a pure decision:
`true` means the call is admitted, `false` means
`PermissionError("Unauthorized ...")` is raised.  `apiKey` is the `API_KEY`
environment value (`none` when unset), `token` the extracted header value.
Mirrors `if not API_KEY: return` and the final denial condition
`not token or not token.lower().startswith("bearer ") or
token.split(" ", 1)[1].strip() != API_KEY`. -/
def require_auth (apiKey token : Option String) : Bool :=
  match apiKey with
  | none => true
  | some k =>
    if k = "" then true
    else
      match token with
      | none => false
      | some t =>
        if t = "" then false
        else if !(startsWithChars ("bearer ").data (lowerChars t.data)) then false
        else if stripChars (afterFirstSpace t.data) = k.data then true
        else false

/-- The `try/except` around header extraction in `_require_auth`
(lines 58-65): when reading headers raises, `token` is set to `None`. -/
def extract_token : Except Unit (Option String) → Option String
  | Except.error _ => none
  | Except.ok t => t

/-- Modelled from the spec (§4.1 AuthGate), word for word, for comparison
with `require_auth`: if the secret is unset always allow; if set, allow only
when the credential is present, has the form `Bearer <token>`, and the token
exactly equals the secret. -/
def authorize_spec (secret credential : Option String) : Bool :=
  match secret with
  | none => true
  | some s =>
    match credential with
    | none => false
    | some c => decide (c = "Bearer " ++ s)

/-- Python `"`".replace` based sanitization `x.replace("`", "")`: remove
every backtick from an identifier. -/
def stripBackticks (s : String) : String :=
  ⟨s.data.filter (fun c => c ≠ '`')⟩

/-- Python `", ".join(l)`. -/
def joinComma : List String → String
  | [] => ""
  | [s] => s
  | s :: r :: rest => s ++ ", " ++ joinComma (r :: rest)

/-- The f-string fragment `` f"`{c.replace('`','')}`" `` used for each
identifier embedded in generated SQL. -/
def quoteIdent (c : String) : String := "`" ++ stripBackticks c ++ "`"

/-- Number of occurrences of a character in a string. -/
def countChar (c : Char) (s : String) : Nat := s.data.count c

/-- The statement built by `describe_table` (line 104):
`"DESCRIBE `%s`" % table.replace("`", "")`. -/
def describe_table_sql (table : String) : String :=
  "DESCRIBE `" ++ stripBackticks table ++ "`"

/-- The statement built by `create_database` (line 139). -/
def create_database_sql (name : String) : String :=
  "CREATE DATABASE `" ++ stripBackticks name ++ "`"

/-- The statement built by `drop_database` (line 148). -/
def drop_database_sql (name : String) : String :=
  "DROP DATABASE `" ++ stripBackticks name ++ "`"

/-- The statement built by `drop_table` (line 167). -/
def drop_table_sql (table : String) : String :=
  "DROP TABLE `" ++ stripBackticks table ++ "`"

/-- The statement built by `insert_row` (lines 176-178): `data` is the
record as an insertion-ordered association list (Python dicts preserve
insertion order); `placeholders` is `", ".join(["%s"] * len(data))`. -/
def insert_row_sql (table : String) (data : List (String × Value)) : String :=
  let cols := joinComma (data.map (fun kv => quoteIdent kv.fst))
  let placeholders := joinComma (List.replicate data.length ("%s"))
  "INSERT INTO " ++ quoteIdent table ++ " (" ++ cols ++ ") VALUES (" ++ placeholders ++ ")"

/-- Modelled from the spec (§4.4 strategy 2), for comparison with
`insert_row_sql`: an INSERT whose column list is the record's ordered key
list (each sanitized and quoted) and whose VALUES list is one positional
placeholder per record entry. -/
def insert_stmt_shape (table : String) (cols : List String) (n : Nat) : String :=
  "INSERT INTO " ++ quoteIdent table ++ " (" ++
    joinComma (cols.map quoteIdent) ++ ") VALUES (" ++
    joinComma (List.replicate n ("%s")) ++ ")"

/-- A raised `mysql.connector.errors.InterfaceError` ("no result set to
fetch from"). -/
inductive InterfaceError where
  | noResultSet
deriving DecidableEq

/-- Cursor state after `cur.execute(sql)` succeeds: `rowcount`, `lastrowid`,
and the pending result set (`none` when the statement produced no result
set). -/
structure Cursor where
  rowcount : Int
  lastrowid : Option Nat
  resultSet : Option (List Row)
deriving DecidableEq

/-- `cur.fetchall()`: returns the pending rows, or raises `InterfaceError`
when the statement produced no result set. -/
def fetchall (c : Cursor) : Except InterfaceError (List Row) :=
  match c.resultSet with
  | some rs => Except.ok rs
  | none => Except.error InterfaceError.noResultSet

/-- Engine outcome of a successful `cur.execute` in `run_sql`: either a
row-producing statement (SELECT/SHOW/DESCRIBE) or a command with no result
set (DDL/most DML). -/
inductive EngineOutcome where
  | rowSet (rows : List Row) (rowcount : Int)
  | command (rowcount : Int) (lastrowid : Option Nat)

/-- Cursor state each outcome leaves behind.  Per the mysql-connector
contract, `lastrowid` is `None` after a statement that returns rows on a
fresh connection (it only reports a value generated by a previous
INSERT/UPDATE). -/
def cursorAfter : EngineOutcome → Cursor
  | EngineOutcome.rowSet rs rc => ⟨rc, none, some rs⟩
  | EngineOutcome.command rc lid => ⟨rc, lid, none⟩

/-- The normalized `{rowcount, lastrowid, rows}` dictionary `run_sql`
returns (lines 117-127): `rowcount` and `lastrowid` read off the cursor,
`rows` from `fetchall` with `InterfaceError` mapped to `[]`. -/
structure RunSqlResult where
  rowcount : Int
  lastrowid : Option Nat
  rows : List Row
deriving DecidableEq

/-- The normalization step of `run_sql` (lines 117-127). -/
def run_sql_result (c : Cursor) : RunSqlResult :=
  ⟨c.rowcount, c.lastrowid,
    match fetchall c with
    | Except.ok rs => rs
    | Except.error _ => []⟩

/-- Result dictionary of `insert_row` (line 182). -/
structure InsertResult where
  lastrowid : Option Nat
deriving DecidableEq

/-- Result dictionary of `execute_many` (line 193). -/
structure ExecManyResult where
  rowcount : Int
deriving DecidableEq

/-- `ping` (lines 71-74): auth, then the literal `"pong"`; no connection. -/
def ping (apiKey tok : Option String) : Except Err String × Trace :=
  if require_auth apiKey tok then (Except.ok ("pong"), ⟨[], 0⟩)
  else (Except.error Err.unauthorized, ⟨[], 0⟩)

/-- `list_databases` (lines 76-85): auth, `_connect(None)`, execute
`SHOW DATABASES` and fetch the names (the abstract `engine` outcome), then
close.  No `try/finally`: on an engine error the close never runs. -/
def list_databases (apiKey tok : Option String)
    (engine : Except ExecError (List String)) : Except Err (List String) × Trace :=
  if require_auth apiKey tok then
    match engine with
    | Except.error e => (Except.error (Err.execution e), ⟨[none], 0⟩)
    | Except.ok dbs => (Except.ok dbs, ⟨[none], 1⟩)
  else (Except.error Err.unauthorized, ⟨[], 0⟩)

/-- `list_tables` (lines 87-96): like `list_databases` but connects with the
caller's `database` argument and runs `SHOW TABLES`. -/
def list_tables (apiKey tok : Option String) (database : Option String)
    (engine : Except ExecError (List String)) : Except Err (List String) × Trace :=
  if require_auth apiKey tok then
    match engine with
    | Except.error e => (Except.error (Err.execution e), ⟨[database], 0⟩)
    | Except.ok tables => (Except.ok tables, ⟨[database], 1⟩)
  else (Except.error Err.unauthorized, ⟨[], 0⟩)

/-- `describe_table` (lines 98-107): executes `describe_table_sql table` and
fetches dictionary rows; no `try/finally`. -/
def describe_table (apiKey tok : Option String) (table : String)
    (database : Option String)
    (engine : String → Except ExecError (List Row)) : Except Err (List Row) × Trace :=
  if require_auth apiKey tok then
    match engine (describe_table_sql table) with
    | Except.error e => (Except.error (Err.execution e), ⟨[database], 0⟩)
    | Except.ok rows => (Except.ok rows, ⟨[database], 1⟩)
  else (Except.error Err.unauthorized, ⟨[], 0⟩)

/-- `run_sql` (lines 109-132): the one handler with `try/finally`; the
close attempt runs on both the success and the engine-error path (close
errors are swallowed by the inner `try/except`). -/
def run_sql (apiKey tok : Option String) (sql : String) (database : Option String)
    (engine : String → Except ExecError EngineOutcome) : Except Err RunSqlResult × Trace :=
  if require_auth apiKey tok then
    match engine sql with
    | Except.error e => (Except.error (Err.execution e), ⟨[database], 1⟩)
    | Except.ok o => (Except.ok (run_sql_result (cursorAfter o)), ⟨[database], 1⟩)
  else (Except.error Err.unauthorized, ⟨[], 0⟩)

/-- `create_database` (lines 134-141): connects with `None`, executes
`create_database_sql name`, returns an f-string echoing the raw name. -/
def create_database (apiKey tok : Option String) (name : String)
    (engine : String → Except ExecError Unit) : Except Err String × Trace :=
  if require_auth apiKey tok then
    match engine (create_database_sql name) with
    | Except.error e => (Except.error (Err.execution e), ⟨[none], 0⟩)
    | Except.ok _ => (Except.ok ("created database " ++ name), ⟨[none], 1⟩)
  else (Except.error Err.unauthorized, ⟨[], 0⟩)

/-- `drop_database` (lines 143-150). -/
def drop_database (apiKey tok : Option String) (name : String)
    (engine : String → Except ExecError Unit) : Except Err String × Trace :=
  if require_auth apiKey tok then
    match engine (drop_database_sql name) with
    | Except.error e => (Except.error (Err.execution e), ⟨[none], 0⟩)
    | Except.ok _ => (Except.ok ("dropped database " ++ name), ⟨[none], 1⟩)
  else (Except.error Err.unauthorized, ⟨[], 0⟩)

/-- `create_table` (lines 152-160): executes the caller's DDL verbatim. -/
def create_table (apiKey tok : Option String) (ddl_sql : String)
    (database : Option String)
    (engine : String → Except ExecError Unit) : Except Err String × Trace :=
  if require_auth apiKey tok then
    match engine ddl_sql with
    | Except.error e => (Except.error (Err.execution e), ⟨[database], 0⟩)
    | Except.ok _ => (Except.ok ("table created"), ⟨[database], 1⟩)
  else (Except.error Err.unauthorized, ⟨[], 0⟩)

/-- `drop_table` (lines 162-169). -/
def drop_table (apiKey tok : Option String) (table : String)
    (database : Option String)
    (engine : String → Except ExecError Unit) : Except Err String × Trace :=
  if require_auth apiKey tok then
    match engine (drop_table_sql table) with
    | Except.error e => (Except.error (Err.execution e), ⟨[database], 0⟩)
    | Except.ok _ => (Except.ok ("dropped table " ++ table), ⟨[database], 1⟩)
  else (Except.error Err.unauthorized, ⟨[], 0⟩)

/-- `insert_row` (lines 171-182): builds `insert_row_sql table data`,
executes it with `list(data.values())` bound as parameters, returns
`cur.lastrowid`; no `try/finally`. -/
def insert_row (apiKey tok : Option String) (table : String)
    (data : List (String × Value)) (database : Option String)
    (engine : String → List Value → Except ExecError (Option Nat)) :
    Except Err InsertResult × Trace :=
  if require_auth apiKey tok then
    match engine (insert_row_sql table data) (data.map Prod.snd) with
    | Except.error e => (Except.error (Err.execution e), ⟨[database], 0⟩)
    | Except.ok lid => (Except.ok ⟨lid⟩, ⟨[database], 1⟩)
  else (Except.error Err.unauthorized, ⟨[], 0⟩)

/-- `cur.executemany(sql, params)` per the mysql-connector contract: the
template is executed once per parameter tuple in order on the same
connection, the cursor's aggregate `rowcount` summing the per-execution
affected-row counts; the first engine error aborts (earlier executions stay
committed under autocommit). -/
def executemany (engine : String → List Value → Except ExecError Int)
    (sql : String) : List (List Value) → Except ExecError Int
  | [] => Except.ok 0
  | t :: ts =>
    match engine sql t with
    | Except.error e => Except.error e
    | Except.ok rc =>
      match executemany engine sql ts with
      | Except.error e => Except.error e
      | Except.ok rest => Except.ok (rc + rest)

/-- `execute_many` (lines 184-193): auth, one `_connect(database)`, one
`cur.executemany` call, returns the aggregate rowcount; no `try/finally`. -/
def execute_many (apiKey tok : Option String) (sql : String)
    (params : List (List Value)) (database : Option String)
    (engine : String → List Value → Except ExecError Int) :
    Except Err ExecManyResult × Trace :=
  if require_auth apiKey tok then
    match executemany engine sql params with
    | Except.error e => (Except.error (Err.execution e), ⟨[database], 0⟩)
    | Except.ok rc => (Except.ok ⟨rc⟩, ⟨[database], 1⟩)
  else (Except.error Err.unauthorized, ⟨[], 0⟩)

/-! Helper lemmas. -/

theorem count_stripBackticks (s : String) : countChar '`' (stripBackticks s) = 0 := by
  simp [countChar, stripBackticks, List.count_eq_zero, List.mem_filter]

theorem countChar_append (c : Char) (a b : String) :
    countChar c (a ++ b) = countChar c a + countChar c b := by
  simp [countChar, String.data_append, List.count_append]

theorem count_quoteIdent (s : String) : countChar '`' (quoteIdent s) = 2 := by
  show countChar '`' ("`" ++ stripBackticks s ++ "`") = 2
  rw [countChar_append, countChar_append, count_stripBackticks]
  decide

theorem count_joinComma_quoteIdent (l : List String) :
    countChar '`' (joinComma (l.map quoteIdent)) = 2 * l.length := by
  induction l with
  | nil => rfl
  | cons a t ih =>
    cases t with
    | nil =>
      show countChar '`' (quoteIdent a) = 2 * 1
      simp [count_quoteIdent]
    | cons b t2 =>
      show countChar '`'
        (quoteIdent a ++ ", " ++ joinComma ((b :: t2).map quoteIdent)) = _
      rw [countChar_append, countChar_append, count_quoteIdent, ih]
      have hsep : countChar '`' (", ") = 0 := rfl
      rw [hsep]
      simp [List.length_cons]
      ring

theorem count_joinComma_placeholders (n : Nat) :
    countChar '`' (joinComma (List.replicate n ("%s"))) = 0 := by
  induction n with
  | zero => rfl
  | succ m ih =>
    cases m with
    | zero => rfl
    | succ m2 =>
      show countChar '`'
        ("%s" ++ ", " ++ joinComma (List.replicate (m2 + 1) ("%s"))) = 0
      rw [countChar_append, countChar_append, ih]
      decide

theorem startsWithChars_iff (p cs : List Char) :
    startsWithChars p cs = true ↔ cs.take p.length = p := by
  induction p generalizing cs with
  | nil => simp [startsWithChars]
  | cons a ps ih =>
    cases cs with
    | nil => simp [startsWithChars]
    | cons c cs2 =>
      simp only [startsWithChars, Bool.and_eq_true, decide_eq_true_eq, ih,
        List.length_cons, List.take_succ_cons, List.cons.injEq]
      constructor
      · rintro ⟨h1, h2⟩
        exact ⟨h1.symm, h2⟩
      · rintro ⟨h1, h2⟩
        exact ⟨h1.symm, h2⟩

theorem executemany_ok (f : List Value → Int) (sql : String)
    (tuples : List (List Value)) :
    executemany (fun _ t => Except.ok (f t)) sql tuples
      = Except.ok ((tuples.map f).sum) := by
  induction tuples with
  | nil => rfl
  | cons a ts ih => simp [executemany, ih]

/-! Claim theorems. -/

/-- C4: every caller-supplied identifier embedded by `describe_table`,
`create_database`, `drop_database`, `drop_table` or `insert_row` is stripped
of all backticks before being embedded, so the generated statement contains
exactly the template's own quoting backticks and none from the identifier
(2 for the single-identifier statements, 2 + 2 per column for the insert);
the insert statement text depends on the record only through its ordered key
list, never its values, which are passed separately as bound parameters. -/
theorem identifier_backticks_stripped :
  (∀ s : String, countChar '`' (stripBackticks s) = 0) ∧
  (stripBackticks ("evil`; DROP TABLE x") = "evil; DROP TABLE x") ∧
  (∀ t : String, countChar '`' (describe_table_sql t) = 2) ∧
  (∀ n : String, countChar '`' (create_database_sql n) = 2) ∧
  (∀ n : String, countChar '`' (drop_database_sql n) = 2) ∧
  (∀ t : String, countChar '`' (drop_table_sql t) = 2) ∧
  (∀ (t : String) (data : List (String × Value)),
    countChar '`' (insert_row_sql t data) = 2 + 2 * data.length) ∧
  (∀ (t : String) (d₁ d₂ : List (String × Value)),
    d₁.map Prod.fst = d₂.map Prod.fst → insert_row_sql t d₁ = insert_row_sql t d₂) := by
  refine ⟨count_stripBackticks, by decide, ?_, ?_, ?_, ?_, ?_, ?_⟩
  · intro t
    show countChar '`' ("DESCRIBE `" ++ stripBackticks t ++ "`") = 2
    rw [countChar_append, countChar_append, count_stripBackticks]
    decide
  · intro n
    show countChar '`' ("CREATE DATABASE `" ++ stripBackticks n ++ "`") = 2
    rw [countChar_append, countChar_append, count_stripBackticks]
    decide
  · intro n
    show countChar '`' ("DROP DATABASE `" ++ stripBackticks n ++ "`") = 2
    rw [countChar_append, countChar_append, count_stripBackticks]
    decide
  · intro t
    show countChar '`' ("DROP TABLE `" ++ stripBackticks t ++ "`") = 2
    rw [countChar_append, countChar_append, count_stripBackticks]
    decide
  · intro t data
    have hcols : data.map (fun kv => quoteIdent kv.fst)
        = (data.map Prod.fst).map quoteIdent := by
      simp [List.map_map, Function.comp]
    show countChar '`' ("INSERT INTO " ++ quoteIdent t ++ " (" ++
      joinComma (data.map (fun kv => quoteIdent kv.fst)) ++ ") VALUES (" ++
      joinComma (List.replicate data.length ("%s")) ++ ")") = 2 + 2 * data.length
    rw [hcols, countChar_append, countChar_append, countChar_append,
      countChar_append, countChar_append, countChar_append, count_quoteIdent,
      count_joinComma_quoteIdent, count_joinComma_placeholders]
    have h1 : countChar '`' ("INSERT INTO ") = 0 := rfl
    have h2 : countChar '`' (" (") = 0 := rfl
    have h3 : countChar '`' (") VALUES (") = 0 := rfl
    have h4 : countChar '`' (")") = 0 := rfl
    rw [h1, h2, h3, h4, List.length_map]
    ring
  · intro t d₁ d₂ h
    have hlen : d₁.length = d₂.length := by
      have := congrArg List.length h
      simpa using this
    have hcols : d₁.map (fun kv => quoteIdent kv.fst)
        = d₂.map (fun kv => quoteIdent kv.fst) := by
      have h1 : (d₁.map Prod.fst).map quoteIdent = (d₂.map Prod.fst).map quoteIdent := by
        rw [h]
      simpa [List.map_map, Function.comp] using h1
    show "INSERT INTO " ++ quoteIdent t ++ " (" ++
        joinComma (d₁.map (fun kv => quoteIdent kv.fst)) ++ ") VALUES (" ++
        joinComma (List.replicate d₁.length ("%s")) ++ ")" =
      "INSERT INTO " ++ quoteIdent t ++ " (" ++
        joinComma (d₂.map (fun kv => quoteIdent kv.fst)) ++ ") VALUES (" ++
        joinComma (List.replicate d₂.length ("%s")) ++ ")"
    rw [hcols, hlen]

theorem identifier_backticks_stripped_witness :
  insert_row_sql ("t") [("a", Value.int 1)] = insert_row_sql ("t") [("a", Value.str ("x"))] := by
  exact identifier_backticks_stripped.2.2.2.2.2.2.2 ("t")
    [("a", Value.int 1)] [("a", Value.str ("x"))] rfl

/-- C5: the normalization step of `run_sql` produces the uniform
`{rowcount, lastrowid, rows}` shape: a row-producing statement yields the
full row sequence with no last id; a statement with no result set yields an
empty row sequence with the engine-reported rowcount and last id, the
`fetchall` attempt raising `InterfaceError` which is caught and mapped to
the empty sequence. -/
theorem run_sql_normalization :
  (∀ (rs : List Row) (rc : Int),
    run_sql_result (cursorAfter (EngineOutcome.rowSet rs rc)) = ⟨rc, none, rs⟩) ∧
  (∀ (rc : Int) (lid : Option Nat),
    run_sql_result (cursorAfter (EngineOutcome.command rc lid)) = ⟨rc, lid, []⟩) ∧
  (∀ (rc : Int) (lid : Option Nat),
    fetchall (cursorAfter (EngineOutcome.command rc lid)) =
      Except.error InterfaceError.noResultSet) ∧
  (∀ (apiKey tok : Option String) (sql : String) (database : Option String)
      (engine : String → Except ExecError EngineOutcome) (o : EngineOutcome),
    require_auth apiKey tok = true → engine sql = Except.ok o →
    run_sql apiKey tok sql database engine =
      (Except.ok (run_sql_result (cursorAfter o)), ⟨[database], 1⟩)) := by
  refine ⟨fun rs rc => rfl, fun rc lid => rfl, fun rc lid => rfl, ?_⟩
  intro apiKey tok sql database engine o h hE
  simp [run_sql, h, hE]

theorem run_sql_normalization_witness :
  run_sql none none ("SELECT 1") none
      (fun _ => Except.ok (EngineOutcome.rowSet [[("1", Value.int 1)]] 1)) =
    (Except.ok ⟨1, none, [[("1", Value.int 1)]]⟩, ⟨[none], 1⟩) := by
  have h := run_sql_normalization.2.2.2 none none ("SELECT 1") none
    (fun _ => Except.ok (EngineOutcome.rowSet [[("1", Value.int 1)]] 1))
    (EngineOutcome.rowSet [[("1", Value.int 1)]] 1) rfl rfl
  simpa using h

/-- C2: for every operation in the catalog, including `ping`, when the
authorization check rejects the presented credential the handler fails with
`Unauthorized` and opens zero database connections: the check runs before
any connection acquisition, with no exception. -/
theorem unauthorized_opens_no_connection (apiKey tok : Option String)
    (h : require_auth apiKey tok = false) :
  (ping apiKey tok = (Except.error Err.unauthorized, ⟨[], 0⟩)) ∧
  (∀ engine, list_databases apiKey tok engine
    = (Except.error Err.unauthorized, ⟨[], 0⟩)) ∧
  (∀ database engine, list_tables apiKey tok database engine
    = (Except.error Err.unauthorized, ⟨[], 0⟩)) ∧
  (∀ table database engine, describe_table apiKey tok table database engine
    = (Except.error Err.unauthorized, ⟨[], 0⟩)) ∧
  (∀ sql database engine, run_sql apiKey tok sql database engine
    = (Except.error Err.unauthorized, ⟨[], 0⟩)) ∧
  (∀ name engine, create_database apiKey tok name engine
    = (Except.error Err.unauthorized, ⟨[], 0⟩)) ∧
  (∀ name engine, drop_database apiKey tok name engine
    = (Except.error Err.unauthorized, ⟨[], 0⟩)) ∧
  (∀ ddl database engine, create_table apiKey tok ddl database engine
    = (Except.error Err.unauthorized, ⟨[], 0⟩)) ∧
  (∀ table database engine, drop_table apiKey tok table database engine
    = (Except.error Err.unauthorized, ⟨[], 0⟩)) ∧
  (∀ table data database engine, insert_row apiKey tok table data database engine
    = (Except.error Err.unauthorized, ⟨[], 0⟩)) ∧
  (∀ sql params database engine, execute_many apiKey tok sql params database engine
    = (Except.error Err.unauthorized, ⟨[], 0⟩)) := by
  refine ⟨?_, ?_, ?_, ?_, ?_, ?_, ?_, ?_, ?_, ?_, ?_⟩ <;>
    intros <;>
    simp [ping, list_databases, list_tables, describe_table, run_sql,
      create_database, drop_database, create_table, drop_table, insert_row,
      execute_many, h]

theorem unauthorized_opens_no_connection_witness :
  ping (some ("secret")) (some ("Bearer wrong"))
    = (Except.error Err.unauthorized, ⟨[], 0⟩) ∧
  run_sql (some ("secret")) (some ("Bearer wrong")) ("SELECT 1") none
      (fun _ => Except.ok (EngineOutcome.rowSet [] 0))
    = (Except.error Err.unauthorized, ⟨[], 0⟩) := by
  have h := unauthorized_opens_no_connection (some ("secret")) (some ("Bearer wrong"))
    (by decide)
  exact ⟨h.1, h.2.2.2.2.1 ("SELECT 1") none _⟩

/-- C1 counterexample: `insert_row` with a failing execution step opens one
connection (`opens = [none]`) and never closes it (`closes = 0`), refuting
the claim that every handler closes the connection exactly once on every
exit path. -/
theorem insert_error_leaks_connection :
  insert_row none none ("t") [("a", Value.int 1)] none
      (fun _ _ => Except.error ⟨1054, "Unknown column"⟩) =
    (Except.error (Err.execution ⟨1054, "Unknown column"⟩), ⟨[none], 0⟩) := rfl

/-- C1 amended: `run_sql` closes its single connection exactly once on every
exit path (its close runs in a `finally`, with close errors suppressed);
every other connection-opening handler opens exactly one connection and
closes it exactly once on success, but closes it zero times when its
execution step raises, letting the error propagate with the connection left
open. -/
theorem connection_close_behavior (apiKey tok : Option String)
    (h : require_auth apiKey tok = true) :
  (∀ sql database engine, (run_sql apiKey tok sql database engine).2
    = ⟨[database], 1⟩) ∧
  (∀ engine, (list_databases apiKey tok engine).2
    = ⟨[none], match engine with | Except.ok _ => 1 | Except.error _ => 0⟩) ∧
  (∀ database engine, (list_tables apiKey tok database engine).2
    = ⟨[database], match engine with | Except.ok _ => 1 | Except.error _ => 0⟩) ∧
  (∀ table database engine, (describe_table apiKey tok table database engine).2
    = ⟨[database], match engine (describe_table_sql table) with
        | Except.ok _ => 1 | Except.error _ => 0⟩) ∧
  (∀ name engine, (create_database apiKey tok name engine).2
    = ⟨[none], match engine (create_database_sql name) with
        | Except.ok _ => 1 | Except.error _ => 0⟩) ∧
  (∀ name engine, (drop_database apiKey tok name engine).2
    = ⟨[none], match engine (drop_database_sql name) with
        | Except.ok _ => 1 | Except.error _ => 0⟩) ∧
  (∀ ddl database engine, (create_table apiKey tok ddl database engine).2
    = ⟨[database], match engine ddl with
        | Except.ok _ => 1 | Except.error _ => 0⟩) ∧
  (∀ table database engine, (drop_table apiKey tok table database engine).2
    = ⟨[database], match engine (drop_table_sql table) with
        | Except.ok _ => 1 | Except.error _ => 0⟩) ∧
  (∀ table data database engine, (insert_row apiKey tok table data database engine).2
    = ⟨[database], match engine (insert_row_sql table data) (data.map Prod.snd) with
        | Except.ok _ => 1 | Except.error _ => 0⟩) ∧
  (∀ sql params database engine, (execute_many apiKey tok sql params database engine).2
    = ⟨[database], match executemany engine sql params with
        | Except.ok _ => 1 | Except.error _ => 0⟩) := by
  refine ⟨?_, ?_, ?_, ?_, ?_, ?_, ?_, ?_, ?_, ?_⟩
  · intro sql database engine
    cases hE : engine sql <;> simp [run_sql, h, hE]
  · intro engine
    cases engine <;> simp [list_databases, h]
  · intro database engine
    cases engine <;> simp [list_tables, h]
  · intro table database engine
    cases hE : engine (describe_table_sql table) <;> simp [describe_table, h, hE]
  · intro name engine
    cases hE : engine (create_database_sql name) <;> simp [create_database, h, hE]
  · intro name engine
    cases hE : engine (drop_database_sql name) <;> simp [drop_database, h, hE]
  · intro ddl database engine
    cases hE : engine ddl <;> simp [create_table, h, hE]
  · intro table database engine
    cases hE : engine (drop_table_sql table) <;> simp [drop_table, h, hE]
  · intro table data database engine
    cases hE : engine (insert_row_sql table data) (data.map Prod.snd) <;>
      simp [insert_row, h, hE]
  · intro sql params database engine
    cases hE : executemany engine sql params <;> simp [execute_many, h, hE]

theorem connection_close_behavior_witness :
  (run_sql none none ("SELECT 1") none
      (fun _ => Except.error ⟨2013, "Lost connection"⟩)).2 = ⟨[none], 1⟩ ∧
  (insert_row none none ("t") [("a", Value.int 1)] none
      (fun _ _ => Except.ok (some 1))).2 = ⟨[none], 1⟩ := by
  have h := connection_close_behavior none none rfl
  refine ⟨h.1 ("SELECT 1") none _, ?_⟩
  have h9 := h.2.2.2.2.2.2.2.2.1 ("t") [("a", Value.int 1)] none
    (fun _ _ => Except.ok (some 1))
  simpa using h9

/-- C3 counterexample: with secret `"s"`, the credential `"Bearer s "`
(trailing space, so its token is `"s "`, not exactly the secret) is accepted
by the code but denied by the spec's rule that the token must exactly equal
the secret. -/
theorem auth_accepts_padded_token :
  require_auth (some ("s")) (some ("Bearer s ")) = true ∧
  authorize_spec (some ("s")) (some ("Bearer s ")) = false := by
  exact ⟨rfl, rfl⟩

/-- C3 amended: the check allows everything when the secret is unset or
empty; with a non-empty secret it denies an absent credential, and accepts a
present credential exactly when it is non-empty, its first 7 characters
lowercase to `"bearer "` (scheme keyword case-insensitive), and the part
after the first space equals the secret once surrounding whitespace is
stripped; in every other case it denies. -/
theorem auth_characterization :
  (∀ cred, require_auth none cred = true) ∧
  (∀ cred, require_auth (some ("")) cred = true) ∧
  (∀ s : String, s ≠ "" → require_auth (some s) none = false) ∧
  (∀ (s t : String), s ≠ "" →
    (require_auth (some s) (some t) = true ↔
      (t ≠ "" ∧ lowerChars (t.data.take 7) = ("bearer ").data ∧
        stripChars (afterFirstSpace t.data) = s.data))) := by
  refine ⟨fun cred => rfl, fun cred => ?_, fun s hs => ?_, fun s t hs => ?_⟩
  · cases cred <;> simp [require_auth]
  · simp [require_auth, hs]
  · have h7 : ("bearer ").data.length = 7 := rfl
    have hpre : startsWithChars (("bearer ").data) (lowerChars t.data) = true ↔
        lowerChars (t.data.take 7) = ("bearer ").data := by
      rw [startsWithChars_iff, h7, lowerChars, lowerChars, List.map_take]
    by_cases ht : t = ""
    · simp [require_auth, hs, ht]
    · by_cases hb : startsWithChars (("bearer ").data) (lowerChars t.data) = true
      · by_cases heq : stripChars (afterFirstSpace t.data) = s.data
        · simp [require_auth, hs, ht, hb, heq, hpre.mp hb]
        · simp [require_auth, hs, ht, hb, heq]
      · have hb' : startsWithChars (("bearer ").data) (lowerChars t.data) = false := by
          simpa using hb
        have hL : require_auth (some s) (some t) = false := by
          simp [require_auth, hs, ht, hb']
        refine iff_of_false (by simp [hL]) ?_
        rintro ⟨-, hx, -⟩
        exact hb (hpre.mpr hx)

theorem auth_characterization_witness :
  require_auth none (some ("x")) = true ∧
  require_auth (some ("k")) none = false ∧
  require_auth (some ("k")) (some ("Bearer k")) = true := by
  refine ⟨auth_characterization.1 (some ("x")),
    auth_characterization.2.2.1 ("k") (by decide), ?_⟩
  exact (auth_characterization.2.2.2 ("k") ("Bearer k") (by decide)).mpr (by decide)

/-- C6: `insert_row` builds an INSERT whose column list is the record's
ordered key list (each backtick-stripped and backtick-quoted, as is the
table name) with one positional placeholder per entry, binds the record's
values in the same order as parameters, and returns the engine-assigned
generated identifier; on the spec's example the statement is
`INSERT INTO `t` (`name`, `age`) VALUES (%s, %s)`. -/
theorem insert_row_statement_shape :
  (∀ (apiKey tok : Option String) (t : String) (data : List (String × Value))
      (database : Option String)
      (engine : String → List Value → Except ExecError (Option Nat))
      (lid : Option Nat),
    require_auth apiKey tok = true → data ≠ [] →
    engine (insert_row_sql t data) (data.map Prod.snd) = Except.ok lid →
    insert_row apiKey tok t data database engine
      = (Except.ok ⟨lid⟩, ⟨[database], 1⟩)) ∧
  (∀ (t : String) (data : List (String × Value)),
    insert_row_sql t data = insert_stmt_shape t (data.map Prod.fst) data.length) ∧
  (insert_row_sql ("t") [("name", Value.str ("a")), ("age", Value.int 5)] =
    "INSERT INTO `t` (`name`, `age`) VALUES (%s, %s)") := by
  refine ⟨?_, ?_, by decide⟩
  · intro apiKey tok t data database engine lid h hdata hE
    simp [insert_row, h, hE]
  · intro t data
    simp only [insert_row_sql, insert_stmt_shape, List.map_map]
    rfl

theorem insert_row_statement_shape_witness :
  insert_row none none ("t") [("name", Value.str ("a")), ("age", Value.int 5)] none
      (fun _ _ => Except.ok (some 7)) = (Except.ok ⟨some 7⟩, ⟨[none], 1⟩) := by
  exact insert_row_statement_shape.1 none none ("t")
    [("name", Value.str ("a")), ("age", Value.int 5)] none
    (fun _ _ => Except.ok (some 7)) (some 7) rfl (by decide) rfl

/-- C7: `execute_many` opens a single connection and, when each per-tuple
execution of the template reports an affected-row count, returns the sum of
those counts as the aggregate rowcount, the template being executed once per
tuple in order. -/
theorem execute_many_aggregate_rowcount (apiKey tok : Option String) (sql : String)
    (tuples : List (List Value)) (database : Option String) (f : List Value → Int)
    (h : require_auth apiKey tok = true) :
    execute_many apiKey tok sql tuples database (fun _ t => Except.ok (f t)) =
      (Except.ok ⟨(tuples.map f).sum⟩, ⟨[database], 1⟩) := by
  simp [execute_many, h, executemany_ok]

theorem execute_many_aggregate_rowcount_witness :
  execute_many none none ("UPDATE t SET x=%s WHERE id=%s")
      [[Value.int 1, Value.int 10], [Value.int 2, Value.int 20]] none
      (fun _ t => Except.ok ((fun _ => (1 : Int)) t)) =
    (Except.ok ⟨2⟩, ⟨[none], 1⟩) := by
  have h := execute_many_aggregate_rowcount none none ("UPDATE t SET x=%s WHERE id=%s")
    [[Value.int 1, Value.int 10], [Value.int 2, Value.int 20]] none
    (fun _ => (1 : Int)) rfl
  simpa using h

/-- C8: the schema `_connect` places in the connect configuration follows
the resolution order: a (non-empty) explicit per-call override wins, else
the process default `DEFAULT_DB`, else none (the server's currently-selected
schema). -/
theorem schema_resolution_order (env : Env) (s : String) (hs : s ≠ "") :
  (connect_cfg env (some s)).database = some s ∧
  (connect_cfg env none).database = env.DEFAULT_DB ∧
  (env.DEFAULT_DB = none → (connect_cfg env none).database = none) := by
  refine ⟨?_, rfl, fun h => by simp [connect_cfg, pyOrOpt, h]⟩
  simp [connect_cfg, pyOrOpt, hs]

theorem schema_resolution_order_witness :
  (connect_cfg ⟨"localhost", 3306, "root", "", some ("mydb"), none⟩
      (some ("override"))).database = some ("override") := by
  exact (schema_resolution_order ⟨"localhost", 3306, "root", "", some ("mydb"), none⟩
    ("override") (by decide)).1

/-- C9: when a non-empty secret is configured and header extraction raises,
the credential is treated as absent and the call is denied with
`Unauthorized` (shown on `ping`) rather than allowed or crashed. -/
theorem auth_fails_closed (k : String) (hk : k ≠ "") :
  extract_token (Except.error ()) = none ∧
  require_auth (some k) (extract_token (Except.error ())) = false ∧
  ping (some k) (extract_token (Except.error ()))
    = (Except.error Err.unauthorized, ⟨[], 0⟩) := by
  have h2 : require_auth (some k) (extract_token (Except.error ())) = false := by
    simp [require_auth, extract_token, hk]
  exact ⟨rfl, h2, by simp [ping, h2]⟩

theorem auth_fails_closed_witness :
  ping (some ("k")) (extract_token (Except.error ()))
    = (Except.error Err.unauthorized, ⟨[], 0⟩) := by
  exact (auth_fails_closed ("k") (by decide)).2.2

/-- C10: an empty-string per-call schema override is coalesced away by the
Python `or`: the connect configuration uses the process default, and is
indistinguishable from the configuration built with no override at all. -/
theorem empty_override_ignored (env : Env) :
  (connect_cfg env (some (""))).database = env.DEFAULT_DB ∧
  connect_cfg env (some ("")) = connect_cfg env none := by
  exact ⟨rfl, rfl⟩

end MySQLMCP
